import Mathlib

/-!
Verification of the `explore_solar_system` catalog/lookup core.

The Python source is shallowly embedded:
  * `Json` models the values produced by `json.load` (JSON numbers are
    modelled as integers; the claims only exercise string-valued fields).
  * `Planet` mirrors `Planet.__init__`: it stores whatever values were
    looked up from the JSON object, with no type checking.
  * `load_data` is a state-passing translation of `SolarSystem.load_data`:
    it takes the current planet list, the resolved directory of the script
    (`os.path.dirname(os.path.abspath(__file__))`) and the file argument,
    and a `FileState` abstracting what `open` + `json.load` would yield at
    the resolved path.  The only `except` clause in the source catches
    `FileNotFoundError`; every other exception propagates, which the model
    renders as `LoadResult.raised`.
  * `get_planet_by_name` mirrors the linear scan with
    `planet.name.lower() == name.lower()`; a non-string stored name would
    make `.lower()` raise `AttributeError`, hence the `Except` result.
-/

set_option autoImplicit false

/-- Python exceptions that the embedded code can raise. -/
inductive PyExn where
  | permissionError
  | jsonDecodeError
  | keyError (key : String)
  | typeError
  | attributeError
  deriving DecidableEq

/-- Values produced by `json.load`.  JSON numbers are modelled as integers;
floating-point literals are outside the scope of the claims. -/
inductive Json where
  | null
  | bool (b : Bool)
  | num (n : Int)
  | str (s : String)
  | arr (elems : List Json)
  | obj (fields : List (String × Json))

/-- `Planet.__init__`: the four attributes are stored exactly as given. -/
structure Planet where
  name : Json
  mass : Json
  distance_from_sun : Json
  moons : Json

/-- `SolarSystem.__init__`: an initially empty list of planets. -/
structure SolarSystem where
  planets : List Planet

/-- Subscripting a parsed JSON object, `d[key]` on a Python dict built by
`json.load`: with duplicate keys in the source text the last wins. -/
def lookupKey (fields : List (String × Json)) (key : String) : Option Json :=
  fields.foldl (fun acc kv => if kv.1 == key then some kv.2 else acc) none

/-- `Planet(planet_data['name'], planet_data['mass'],
planet_data['distance_from_sun'], planet_data['moons'])`: the four
subscripts are evaluated left to right, so the first missing key raises its
`KeyError`; subscripting a non-dict element raises `TypeError`. -/
def parsePlanet (j : Json) : Except PyExn Planet :=
  match j with
  | .obj fields =>
    match lookupKey fields "name" with
    | none => .error (.keyError "name")
    | some n =>
      match lookupKey fields "mass" with
      | none => .error (.keyError "mass")
      | some m =>
        match lookupKey fields "distance_from_sun" with
        | none => .error (.keyError "distance_from_sun")
        | some d =>
          match lookupKey fields "moons" with
          | none => .error (.keyError "moons")
          | some mo => .ok { name := n, mass := m, distance_from_sun := d, moons := mo }
  | _ => .error .typeError

/-- `for planet_data in data`: iterating a list yields its elements, a dict
its keys, a string its characters; other values raise `TypeError`. -/
def pyIter (j : Json) : Except PyExn (List Json) :=
  match j with
  | .arr elems => .ok elems
  | .obj fields => .ok (fields.map (fun kv => Json.str kv.1))
  | .str s => .ok (s.data.map (fun c => Json.str (String.singleton c)))
  | _ => .error .typeError

/-- The loop body of `load_data`: build each `Planet` in turn and append it
to `self.planets`; the first failing element stops the loop with its
exception, leaving the already-appended planets in place. -/
def loadLoop (planets : List Planet) (items : List Json) :
    List Planet × Option PyExn :=
  match items with
  | [] => (planets, none)
  | j :: rest =>
    match parsePlanet j with
    | .ok p => loadLoop (planets ++ [p]) rest
    | .error e => (planets, some e)

/-- What `open(full_path)` followed by `json.load(file)` yields at the
resolved path: the file is missing, unreadable, holds text that is not
valid JSON, or parses to a `Json` value. -/
inductive FileState where
  | missing
  | unreadable
  | invalid
  | parsed (j : Json)

/-- Outcome of a `load_data` call: normal return, normal return after the
`messagebox.showerror` dialog in the `except FileNotFoundError` branch, or
an exception propagating out of the method unhandled. -/
inductive LoadResult where
  | ok
  | errorDialog (msg : String)
  | raised (e : PyExn)
  deriving DecidableEq

/-- `os.path.join(base_dir, file_path)` for POSIX paths. -/
def joinPath (base_dir file_path : String) : String :=
  if file_path.startsWith "/" then file_path else base_dir ++ "/" ++ file_path

/-- The dialog text shown in the `except FileNotFoundError` branch. -/
def fileNotFoundMsg (full_path : String) : String :=
  "Data file not found. Ensure 'planets.json' is in the same directory as the script: "
    ++ full_path

/-- `SolarSystem.load_data`, state-passing: only `FileNotFoundError` is
caught (dialog, normal return); `PermissionError` from `open`,
`json.JSONDecodeError` from `json.load`, and `TypeError` / `KeyError` from
the loop all propagate unhandled. -/
def load_data (self : SolarSystem) (base_dir file_path : String)
    (fs : FileState) : SolarSystem × LoadResult :=
  let full_path := joinPath base_dir file_path
  match fs with
  | .missing => (self, .errorDialog (fileNotFoundMsg full_path))
  | .unreadable => (self, .raised .permissionError)
  | .invalid => (self, .raised .jsonDecodeError)
  | .parsed j =>
    match pyIter j with
    | .error e => (self, .raised e)
    | .ok items =>
      match loadLoop self.planets items with
      | (ps, none) => ({ planets := ps }, .ok)
      | (ps, some e) => ({ planets := ps }, .raised e)

/-- Python `str.lower` on the ASCII planet names: lowercase each character.
(Defined character-wise so that it reduces structurally.) -/
def str_lower (s : String) : String := ⟨s.data.map Char.toLower⟩

/-- `SolarSystem.get_planet_by_name`: scan `self.planets` in order and
return the first planet whose lowercased name equals the lowercased query;
`None` when the scan is exhausted.  `planet.name.lower()` on a non-string
stored name raises `AttributeError`. -/
def get_planet_by_name (planets : List Planet) (name : String) :
    Except PyExn (Option Planet) :=
  match planets with
  | [] => .ok none
  | p :: rest =>
    match p.name with
    | .str s =>
      if str_lower s == str_lower name then .ok (some p)
      else get_planet_by_name rest name
    | _ => .error .attributeError

/-- The method-call translation of `get_planet_by_name`: the body contains
no assignment to `self` or `self.planets`, so the post-state is the
pre-state. -/
def get_planet_by_name_step (self : SolarSystem) (name : String) :
    SolarSystem × Except PyExn (Option Planet) :=
  (self, get_planet_by_name self.planets name)

/-- Python truthiness of a parsed JSON value (`if self.moons`). -/
def pyTruthy (j : Json) : Bool :=
  match j with
  | .null => false
  | .bool b => b
  | .num n => n != 0
  | .str s => !s.isEmpty
  | .arr elems => !elems.isEmpty
  | .obj fields => !fields.isEmpty

/-- The left-to-right scan of `str.join` over a list: all elements must be
strings; the first non-string one raises. -/
def extractStrs (l : List Json) : Option (List String) :=
  match l with
  | [] => some []
  | Json.str s :: rest =>
    match extractStrs rest with
    | some ss => some (s :: ss)
    | none => none
  | _ => none

/-- `sep.join(x)`: joins a list of strings, or the characters of a string;
a list with a non-string element, or any other value, raises `TypeError`. -/
def pyJoin (sep : String) (j : Json) : Except PyExn String :=
  match j with
  | .arr elems =>
    match extractStrs elems with
    | some ss => .ok (String.intercalate sep ss)
    | none => .error .typeError
  | .str s => .ok (String.intercalate sep (s.data.map String.singleton))
  | _ => .error .typeError

mutual
/-- Python `repr` of a parsed JSON value (quote escaping inside strings is
out of scope for the claims). -/
def pyRepr : Json → String
  | .null => "None"
  | .bool true => "True"
  | .bool false => "False"
  | .num n => toString n
  | .str s => "'" ++ s ++ "'"
  | .arr elems => "[" ++ pyReprArr elems ++ "]"
  | .obj fields => "\x7b" ++ pyReprObj fields ++ "\x7d"

/-- Comma-separated `repr`s of list elements. -/
def pyReprArr : List Json → String
  | [] => ""
  | [j] => pyRepr j
  | j :: rest => pyRepr j ++ ", " ++ pyReprArr rest

/-- Comma-separated `'key': repr` pairs of dict entries. -/
def pyReprObj : List (String × Json) → String
  | [] => ""
  | [kv] => "'" ++ kv.1 ++ "': " ++ pyRepr kv.2
  | kv :: rest => "'" ++ kv.1 ++ "': " ++ pyRepr kv.2 ++ ", " ++ pyReprObj rest
end

/-- Python `str` of a parsed JSON value, as used by f-string interpolation:
strings render as themselves, everything else as its `repr`. -/
def pyStr (j : Json) : String :=
  match j with
  | .str s => s
  | j => pyRepr j

/-- Python `len`: length of a list, string, or dict; `TypeError` otherwise. -/
def pyLen (j : Json) : Except PyExn Nat :=
  match j with
  | .arr elems => .ok elems.length
  | .str s => .ok s.length
  | .obj fields => .ok fields.length
  | _ => .error .typeError

/-- The moons segment of `Planet.__str__`:
`', '.join(self.moons) if self.moons else 'None'` — an empty (falsy) moons
value renders as the literal token `None` without calling `join`. -/
def moonsRendered (moons : Json) : Except PyExn String :=
  if pyTruthy moons then pyJoin ", " moons else .ok "None"

/-- `Planet.__str__`: the four-line rendering of the planet's attributes. -/
def planet_str (p : Planet) : Except PyExn String :=
  match moonsRendered p.moons with
  | .error e => .error e
  | .ok ms =>
    .ok ("Name: " ++ pyStr p.name ++ "\n"
      ++ "Mass: " ++ pyStr p.mass ++ " kg\n"
      ++ "Distance from Sun: " ++ pyStr p.distance_from_sun ++ " km\n"
      ++ "Moons: " ++ ms)

/-- A message box shown by the GUI handlers. -/
inductive AppMsg where
  | info (title body : String)
  | error (title body : String)
  deriving DecidableEq

/-- `SolarSystemApp.show_details` on the current entry text. -/
def show_details (self : SolarSystem) (entry : String) : Except PyExn AppMsg :=
  match get_planet_by_name self.planets entry with
  | .error e => .error e
  | .ok none => .ok (.error "Error" "Planet not found.")
  | .ok (some p) =>
    match planet_str p with
    | .error e => .error e
    | .ok s => .ok (.info "Planet Details" s)

/-- `SolarSystemApp.get_moons` on the current entry text. -/
def get_moons (self : SolarSystem) (entry : String) : Except PyExn AppMsg :=
  match get_planet_by_name self.planets entry with
  | .error e => .error e
  | .ok none => .ok (.error "Error" "Planet not found.")
  | .ok (some p) =>
    match pyLen p.moons with
    | .error e => .error e
    | .ok n => .ok (.info "Moon Count" (pyStr p.name ++ " has " ++ toString n ++ " moon(s)."))

/-- An element parses to exactly this planet. -/
def parseOk (j : Json) (p : Planet) : Prop := parsePlanet j = .ok p

/-- A `load_data` outcome is an exception escaping the method unhandled. -/
def raisesUnhandled (r : LoadResult) : Bool :=
  match r with
  | .raised _ => true
  | _ => false

/-! ### Helper lemmas -/

theorem loadLoop_forall₂ {js : List Json} {ps : List Planet}
    (h : List.Forall₂ parseOk js ps) :
    ∀ acc : List Planet, loadLoop acc js = (acc ++ ps, none) := by
  induction h with
  | nil => intro acc; simp [loadLoop]
  | cons hj _ ih =>
    intro acc
    unfold parseOk at hj
    simp [loadLoop, hj, ih]

theorem loadLoop_stops {good : List Json} {gps : List Planet}
    (hgood : List.Forall₂ parseOk good gps) {bad : Json} {e : PyExn}
    (hbad : parsePlanet bad = .error e) (rest : List Json) :
    ∀ acc : List Planet,
      loadLoop acc (good ++ bad :: rest) = (acc ++ gps, some e) := by
  induction hgood with
  | nil => intro acc; simp [loadLoop, hbad]
  | cons hj _ ih =>
    intro acc
    unfold parseOk at hj
    simp only [List.cons_append, loadLoop, hj, List.append_eq]
    rw [ih]
    simp

theorem get_planet_cons_hit {p : Planet} {s : String} {q : String}
    (hname : p.name = Json.str s) (hlow : str_lower s = str_lower q)
    (rest : List Planet) :
    get_planet_by_name (p :: rest) q = .ok (some p) := by
  simp [get_planet_by_name, hname, hlow]

theorem get_planet_cons_miss {p : Planet} {s : String} {q : String}
    (hname : p.name = Json.str s) (hlow : str_lower s ≠ str_lower q)
    (rest : List Planet) :
    get_planet_by_name (p :: rest) q = get_planet_by_name rest q := by
  simp [get_planet_by_name, hname, hlow]

theorem get_planet_append_miss {pre : List Planet} {q : String}
    (hpre : ∀ p ∈ pre, ∃ s, p.name = Json.str s ∧ str_lower s ≠ str_lower q)
    (l : List Planet) :
    get_planet_by_name (pre ++ l) q = get_planet_by_name l q := by
  induction pre with
  | nil => simp
  | cons p rest ih =>
    obtain ⟨s, hname, hlow⟩ := hpre p (by simp)
    rw [List.cons_append, get_planet_cons_miss hname hlow]
    exact ih (fun p hp => hpre p (by simp [hp]))

theorem get_planet_none {ps : List Planet} {q : String}
    (h : ∀ p ∈ ps, ∃ s, p.name = Json.str s ∧ str_lower s ≠ str_lower q) :
    get_planet_by_name ps q = .ok none := by
  have := get_planet_append_miss h ([] : List Planet)
  simpa [get_planet_by_name] using this

theorem get_planet_query_congr {q₁ q₂ : String} (hq : str_lower q₁ = str_lower q₂)
    (ps : List Planet) :
    get_planet_by_name ps q₁ = get_planet_by_name ps q₂ := by
  induction ps with
  | nil => rfl
  | cons p rest ih =>
    simp only [get_planet_by_name]
    cases hname : p.name <;> simp [hq, ih]

theorem get_planet_mem {ps : List Planet} {q : String} {p : Planet}
    (h : get_planet_by_name ps q = .ok (some p)) : p ∈ ps := by
  induction ps with
  | nil => simp [get_planet_by_name] at h
  | cons hd rest ih =>
    rw [get_planet_by_name] at h
    cases hname : hd.name with
    | null => rw [hname] at h; exact absurd h (by simp)
    | bool b => rw [hname] at h; exact absurd h (by simp)
    | num n => rw [hname] at h; exact absurd h (by simp)
    | arr l => rw [hname] at h; exact absurd h (by simp)
    | obj l => rw [hname] at h; exact absurd h (by simp)
    | str s =>
      rw [hname] at h
      by_cases hlow : str_lower s = str_lower q
      · have heq : hd = p := by simpa [hlow] using h
        exact heq ▸ List.mem_cons_self _ _
      · have h₂ : get_planet_by_name rest q = .ok (some p) := by
          simpa [beq_iff_eq, hlow] using h
        exact List.mem_cons_of_mem _ (ih h₂)

/-! ### Concrete records mirroring the repository's test fixture -/

/-- The Earth record of the test fixture. -/
def earthPlanet : Planet :=
  { name := Json.str "Earth", mass := Json.str "5.97237e24",
    distance_from_sun := Json.str "149600000", moons := Json.arr [Json.str "Moon"] }

/-- The Mars record of the test fixture. -/
def marsPlanet : Planet :=
  { name := Json.str "Mars", mass := Json.str "6.4171e23",
    distance_from_sun := Json.str "227900000",
    moons := Json.arr [Json.str "Phobos", Json.str "Deimos"] }

/-- The Mercury record of the test fixture (no moons). -/
def mercuryPlanet : Planet :=
  { name := Json.str "Mercury", mass := Json.str "3.3011e23",
    distance_from_sun := Json.str "57910000", moons := Json.arr [] }

/-- A second record whose name equals Earth's up to case. -/
def earthDup : Planet :=
  { name := Json.str "EARTH", mass := Json.str "duplicate",
    distance_from_sun := Json.str "duplicate", moons := Json.arr [] }

/-- The Earth element as a JSON object. -/
def earthJson : Json :=
  Json.obj [("name", Json.str "Earth"), ("mass", Json.str "5.97237e24"),
    ("distance_from_sun", Json.str "149600000"), ("moons", Json.arr [Json.str "Moon"])]

/-- The Mars element as a JSON object. -/
def marsJson : Json :=
  Json.obj [("name", Json.str "Mars"), ("mass", Json.str "6.4171e23"),
    ("distance_from_sun", Json.str "227900000"),
    ("moons", Json.arr [Json.str "Phobos", Json.str "Deimos"])]

/-- An element missing the required key `distance_from_sun`. -/
def badJson : Json :=
  Json.obj [("name", Json.str "Saturn"), ("mass", Json.str "5.683e26")]

/-! ### Claims about the lookup service -/

/-- C1: `get_planet_by_name` compares the query against each stored record
name after lowercasing both, so querying "earth", "EARTH" or "Earth"
against a catalog containing a record named "Earth" (and no earlier record
matching it case-insensitively) returns that record; in general the result
depends only on the lowercased query. -/
theorem c1_lookup_case_insensitive (pre post : List Planet) (r : Planet)
    (hname : r.name = Json.str "Earth")
    (hpre : ∀ p ∈ pre, ∃ s, p.name = Json.str s ∧ str_lower s ≠ "earth") :
    get_planet_by_name (pre ++ r :: post) "earth" = .ok (some r) ∧
    get_planet_by_name (pre ++ r :: post) "EARTH" = .ok (some r) ∧
    get_planet_by_name (pre ++ r :: post) "Earth" = .ok (some r) ∧
    (∀ (ps : List Planet) (q₁ q₂ : String), str_lower q₁ = str_lower q₂ →
      get_planet_by_name ps q₁ = get_planet_by_name ps q₂) := by
  have key : ∀ q : String, str_lower q = "earth" →
      get_planet_by_name (pre ++ r :: post) q = .ok (some r) := by
    intro q hq
    rw [get_planet_append_miss (fun p hp => by
      obtain ⟨s, h₁, h₂⟩ := hpre p hp
      exact ⟨s, h₁, by rw [hq]; exact h₂⟩)]
    exact get_planet_cons_hit hname (by rw [hq]; decide) post
  exact ⟨key "earth" (by decide), key "EARTH" (by decide), key "Earth" (by decide),
    fun ps q₁ q₂ hq => get_planet_query_congr hq ps⟩

/-- C1 witness: the three casings of "earth" all retrieve the Earth record
from a concrete catalog. -/
theorem c1_lookup_case_insensitive_witness :
    get_planet_by_name [marsPlanet, earthPlanet, mercuryPlanet] "earth"
      = .ok (some earthPlanet) ∧
    get_planet_by_name [marsPlanet, earthPlanet, mercuryPlanet] "EARTH"
      = .ok (some earthPlanet) ∧
    get_planet_by_name [marsPlanet, earthPlanet, mercuryPlanet] "Earth"
      = .ok (some earthPlanet) := by
  have h := c1_lookup_case_insensitive [marsPlanet] [mercuryPlanet] earthPlanet rfl
    (by
      intro p hp
      rw [List.mem_singleton] at hp
      exact ⟨"Mars", by rw [hp]; rfl, by decide⟩)
  exact ⟨h.1, h.2.1, h.2.2.1⟩

/-- C4: with two or more records whose names are equal up to case, the scan
returns the first matching record in catalog order; later duplicates are
never returned. -/
theorem c4_first_match_wins (pre post : List Planet) (r : Planet) (q s : String)
    (hname : r.name = Json.str s) (hmatch : str_lower s = str_lower q)
    (hpre : ∀ p ∈ pre, ∃ t, p.name = Json.str t ∧ str_lower t ≠ str_lower q) :
    get_planet_by_name (pre ++ r :: post) q = .ok (some r) := by
  rw [get_planet_append_miss hpre]
  exact get_planet_cons_hit hname hmatch post

/-- C4 witness: a catalog holding both "Earth" and a duplicate "EARTH"
returns the first of them, not the duplicate. -/
theorem c4_first_match_wins_witness :
    get_planet_by_name [earthPlanet, earthDup] "earth" = .ok (some earthPlanet) :=
  c4_first_match_wins [] [earthDup] earthPlanet "earth" "Earth" rfl (by decide)
    (by intro p hp; exact absurd hp (List.not_mem_nil p))

/-- C6: any query — empty, numeric, symbolic, or one differing from every
stored name only by whitespace — returns not-found unless some record's
stored name equals it up to case; concretely, " Earth", "123", "@#" and ""
all miss a catalog whose only record is named "Earth". -/
theorem c6_not_found_unless_literal_match (planets : List Planet) (q : String)
    (h : ∀ p ∈ planets, ∃ s, p.name = Json.str s ∧ str_lower s ≠ str_lower q) :
    get_planet_by_name planets q = .ok none ∧
    get_planet_by_name [earthPlanet] " Earth" = .ok none ∧
    get_planet_by_name [earthPlanet] "123" = .ok none ∧
    get_planet_by_name [earthPlanet] "@#" = .ok none ∧
    get_planet_by_name [earthPlanet] "" = .ok none :=
  ⟨get_planet_none h, rfl, rfl, rfl, rfl⟩

/-- C6 witness: the empty query misses a concrete one-record catalog. -/
theorem c6_not_found_unless_literal_match_witness :
    get_planet_by_name [earthPlanet] "" = .ok none ∧
    get_planet_by_name [earthPlanet] " Earth" = .ok none :=
  have h := c6_not_found_unless_literal_match [earthPlanet] ""
    (by
      intro p hp
      rw [List.mem_singleton] at hp
      exact ⟨"Earth", by rw [hp]; rfl, by decide⟩)
  ⟨h.1, h.2.1⟩

/-- C8: the lookup is a pure function of the catalog and the query: the
method call leaves the state unchanged, its result is computed from
`self.planets` and the query alone, and any record it returns is a member
of the catalog. -/
theorem c8_lookup_is_pure (self : SolarSystem) (q : String) :
    (get_planet_by_name_step self q).1 = self ∧
    (get_planet_by_name_step self q).2 = get_planet_by_name self.planets q ∧
    (∀ p, (get_planet_by_name_step self q).2 = .ok (some p) → p ∈ self.planets) :=
  ⟨rfl, rfl, fun _ h => get_planet_mem h⟩

/-- C8 witness: a concrete successful lookup leaves the state unchanged and
returns a member of the catalog. -/
theorem c8_lookup_is_pure_witness :
    (get_planet_by_name_step ⟨[marsPlanet, earthPlanet]⟩ "EARTH").1
      = (⟨[marsPlanet, earthPlanet]⟩ : SolarSystem) ∧
    earthPlanet ∈ [marsPlanet, earthPlanet] :=
  ⟨(c8_lookup_is_pure ⟨[marsPlanet, earthPlanet]⟩ "EARTH").1,
   (c8_lookup_is_pure ⟨[marsPlanet, earthPlanet]⟩ "EARTH").2.2 earthPlanet rfl⟩

/-! ### Claims about the catalog loader -/

/-- C2 counterexample: loading invalid JSON does not fail with a handled
`DataFormatInvalid`-style error — the `json.JSONDecodeError` escapes
`load_data` unhandled (the only caught exception is `FileNotFoundError`),
contradicting "no condition is fatal to the process". -/
theorem c2_counterexample_invalid_json_raises :
    load_data ⟨[]⟩ "/app" "planets.json" .invalid = (⟨[]⟩, .raised .jsonDecodeError) ∧
    raisesUnhandled (load_data ⟨[]⟩ "/app" "planets.json" .invalid).2 = true :=
  ⟨rfl, rfl⟩

/-- C2 amended: if the file content is not valid JSON, `load_data` raises
an unhandled `json.JSONDecodeError`; if an element is missing a required
key, it raises an unhandled `KeyError` naming that key.  Neither condition
is caught. -/
theorem c2_amended_malformed_data_raises (self : SolarSystem)
    (base_dir file_path : String) :
    (load_data self base_dir file_path .invalid).2 = .raised .jsonDecodeError ∧
    (∀ (pre : List Json) (pres : List Planet) (bad : Json) (k : String)
        (rest : List Json),
      List.Forall₂ parseOk pre pres → parsePlanet bad = .error (.keyError k) →
      (load_data self base_dir file_path (.parsed (.arr (pre ++ bad :: rest)))).2
        = .raised (.keyError k)) := by
  refine ⟨rfl, ?_⟩
  intro pre pres bad k rest hpre hbad
  simp [load_data, pyIter, loadLoop_stops hpre hbad]

/-- C2 amended witness: invalid JSON raises `JSONDecodeError`; an element
missing the `name` key raises `KeyError("name")`. -/
theorem c2_amended_malformed_data_raises_witness :
    (load_data ⟨[]⟩ "/app" "planets.json" .invalid).2 = .raised .jsonDecodeError ∧
    (load_data ⟨[]⟩ "/app" "planets.json" (.parsed (.arr [Json.obj []]))).2
      = .raised (.keyError "name") :=
  ⟨(c2_amended_malformed_data_raises ⟨[]⟩ "/app" "planets.json").1,
   (c2_amended_malformed_data_raises ⟨[]⟩ "/app" "planets.json").2
     [] [] (Json.obj []) "name" [] .nil rfl⟩

/-- C3 counterexample: an existing but unreadable data file is not handled:
the `PermissionError` from `open` escapes `load_data` unhandled, so the
"unreadable" half of the claim fails. -/
theorem c3_counterexample_unreadable_raises :
    load_data ⟨[]⟩ "/app" "planets.json" .unreadable
      = (⟨[]⟩, .raised .permissionError) ∧
    raisesUnhandled (load_data ⟨[]⟩ "/app" "planets.json" .unreadable).2 = true :=
  ⟨rfl, rfl⟩

/-- C3 amended: if the data file does not exist, `load_data` catches the
`FileNotFoundError`, shows an error dialog whose text names the resolved
path, returns normally, and leaves the catalog unchanged (so a load at
startup leaves it empty); if the file exists but is unreadable, the
`PermissionError` propagates unhandled. -/
theorem c3_amended_missing_file_handled (self : SolarSystem)
    (base_dir file_path : String) :
    load_data self base_dir file_path .missing
      = (self, .errorDialog (fileNotFoundMsg (joinPath base_dir file_path))) ∧
    fileNotFoundMsg (joinPath base_dir file_path)
      = "Data file not found. Ensure 'planets.json' is in the same directory as the script: "
          ++ joinPath base_dir file_path ∧
    (load_data self base_dir file_path .unreadable).2 = .raised .permissionError :=
  ⟨rfl, rfl, rfl⟩

/-- C5: loading a well-formed JSON array of N objects, each carrying the
four required keys, yields a catalog of exactly N records, one per array
element in array order, each record holding exactly the element's values
for `name`, `mass`, `distance_from_sun` and `moons`. -/
theorem c5_load_preserves_elements (base_dir file_path : String)
    (js : List Json) (ps : List Planet)
    (h : List.Forall₂ (fun j p => ∃ fields, j = Json.obj fields ∧
        lookupKey fields "name" = some p.name ∧
        lookupKey fields "mass" = some p.mass ∧
        lookupKey fields "distance_from_sun" = some p.distance_from_sun ∧
        lookupKey fields "moons" = some p.moons) js ps) :
    load_data ⟨[]⟩ base_dir file_path (.parsed (.arr js)) = (⟨ps⟩, .ok) ∧
    ps.length = js.length := by
  have hok : List.Forall₂ parseOk js ps := by
    refine h.imp ?_
    intro j p hj
    obtain ⟨fields, rfl, h₁, h₂, h₃, h₄⟩ := hj
    simp [parseOk, parsePlanet, h₁, h₂, h₃, h₄]
  refine ⟨?_, (List.Forall₂.length_eq h).symm⟩
  simp [load_data, pyIter, loadLoop_forall₂ hok]

/-- C5 witness: a two-element well-formed array loads to exactly the two
corresponding records in order. -/
theorem c5_load_preserves_elements_witness :
    load_data ⟨[]⟩ "/app" "planets.json" (.parsed (.arr [earthJson, marsJson]))
      = (⟨[earthPlanet, marsPlanet]⟩, .ok) ∧
    ([earthPlanet, marsPlanet] : List Planet).length
      = ([earthJson, marsJson] : List Json).length :=
  c5_load_preserves_elements "/app" "planets.json" [earthJson, marsJson]
    [earthPlanet, marsPlanet]
    (.cons ⟨_, rfl, rfl, rfl, rfl, rfl⟩ (.cons ⟨_, rfl, rfl, rfl, rfl, rfl⟩ .nil))

/-- C9: `load_data` appends to the existing planet list without clearing
it, so loading onto a catalog of N records adds the M newly parsed ones
after them; in particular a second load on the same `SolarSystem` yields
the first file's records followed by the second file's. -/
theorem c9_load_appends_without_clearing (base_dir file_path : String)
    (ps gps : List Planet) (js : List Json)
    (h : List.Forall₂ parseOk js gps) :
    load_data ⟨ps⟩ base_dir file_path (.parsed (.arr js)) = (⟨ps ++ gps⟩, .ok) ∧
    (∀ (js₁ : List Json) (gps₁ : List Planet), List.Forall₂ parseOk js₁ gps₁ →
      (load_data (load_data ⟨[]⟩ base_dir file_path (.parsed (.arr js₁))).1
          base_dir file_path (.parsed (.arr js))).1 = ⟨gps₁ ++ gps⟩) := by
  have main : ∀ acc : List Planet,
      load_data ⟨acc⟩ base_dir file_path (.parsed (.arr js)) = (⟨acc ++ gps⟩, .ok) := by
    intro acc
    simp [load_data, pyIter, loadLoop_forall₂ h]
  refine ⟨main ps, ?_⟩
  intro js₁ gps₁ h₁
  have first : load_data ⟨[]⟩ base_dir file_path (.parsed (.arr js₁))
      = (⟨gps₁⟩, .ok) := by
    have := loadLoop_forall₂ h₁ []
    simp [load_data, pyIter, this]
  rw [first]
  rw [main gps₁]

/-- C9 witness: loading a one-record file onto a catalog already holding
Earth appends Mars after it; two successive loads from empty give the
concatenation. -/
theorem c9_load_appends_without_clearing_witness :
    load_data ⟨[earthPlanet]⟩ "/app" "planets.json" (.parsed (.arr [marsJson]))
      = (⟨[earthPlanet, marsPlanet]⟩, .ok) ∧
    (load_data (load_data ⟨[]⟩ "/app" "planets.json" (.parsed (.arr [earthJson]))).1
        "/app" "planets.json" (.parsed (.arr [marsJson]))).1
      = (⟨[earthPlanet, marsPlanet]⟩ : SolarSystem) :=
  have h := c9_load_appends_without_clearing "/app" "planets.json"
    [earthPlanet] [marsPlanet] [marsJson] (.cons rfl .nil)
  ⟨h.1, h.2 [earthJson] [earthPlanet] (.cons rfl .nil)⟩

/-- C10: loading is not atomic — if the parsed array's elements before
index k all load and the element at index k is missing a required key, the
catalog is left holding exactly the first k records when the `KeyError` is
raised. -/
theorem c10_partial_load_on_mid_array_failure (base_dir file_path : String)
    (good : List Json) (gps : List Planet) (bad : Json) (k : String)
    (rest : List Json)
    (hgood : List.Forall₂ parseOk good gps)
    (hbad : parsePlanet bad = .error (.keyError k)) :
    load_data ⟨[]⟩ base_dir file_path (.parsed (.arr (good ++ bad :: rest)))
      = (⟨gps⟩, .raised (.keyError k)) := by
  simp [load_data, pyIter, loadLoop_stops hgood hbad]

/-- C10 witness: `[earthJson, badJson, marsJson]` fails at index 1 with
`KeyError("distance_from_sun")`, leaving exactly the Earth record loaded. -/
theorem c10_partial_load_on_mid_array_failure_witness :
    load_data ⟨[]⟩ "/app" "planets.json"
        (.parsed (.arr [earthJson, badJson, marsJson]))
      = (⟨[earthPlanet]⟩, .raised (.keyError "distance_from_sun")) :=
  c10_partial_load_on_mid_array_failure "/app" "planets.json"
    [earthJson] [earthPlanet] badJson "distance_from_sun" [marsJson]
    (.cons rfl .nil) rfl

/-! ### Claims about the derived queries and rendering -/

theorem extractStrs_map_str (ms : List String) :
    extractStrs (ms.map Json.str) = some ms := by
  induction ms with
  | nil => rfl
  | cons m t ih => simp [extractStrs, ih]

theorem moonsRendered_arr_str (ms : List String) :
    moonsRendered (Json.arr (ms.map Json.str))
      = .ok (if ms.isEmpty then "None" else String.intercalate ", " ms) := by
  cases ms with
  | nil => rfl
  | cons m t =>
    have h := extractStrs_map_str (m :: t)
    rw [List.map_cons] at h
    simp [moonsRendered, pyTruthy, pyJoin, h]

/-- C7: for every found record whose moons value is a list of strings, the
moon-count query reports the length of that list, and the detail rendering
shows the moons comma-joined, or the literal token "None" when the list is
empty. -/
theorem c7_moon_count_and_rendering (self : SolarSystem) (entry : String)
    (p : Planet) (ms : List String)
    (hfound : get_planet_by_name self.planets entry = .ok (some p))
    (hmoons : p.moons = Json.arr (ms.map Json.str)) :
    pyLen p.moons = .ok ms.length ∧
    get_moons self entry
      = .ok (.info "Moon Count"
          (pyStr p.name ++ " has " ++ toString ms.length ++ " moon(s).")) ∧
    show_details self entry
      = .ok (.info "Planet Details"
          ("Name: " ++ pyStr p.name ++ "\n"
            ++ "Mass: " ++ pyStr p.mass ++ " kg\n"
            ++ "Distance from Sun: " ++ pyStr p.distance_from_sun ++ " km\n"
            ++ "Moons: "
            ++ (if ms.isEmpty then "None" else String.intercalate ", " ms))) := by
  have hlen : pyLen p.moons = .ok ms.length := by
    rw [hmoons]; simp [pyLen]
  refine ⟨hlen, ?_, ?_⟩
  · simp only [get_moons]
    rw [hfound]
    simp [hlen]
  · simp only [show_details]
    rw [hfound]
    simp only [planet_str]
    rw [hmoons, moonsRendered_arr_str]

/-- C7 witness: Mars (two moons) reports 2 and renders "Phobos, Deimos";
Mercury (no moons) reports 0 and renders the literal token "None". -/
theorem c7_moon_count_and_rendering_witness :
    get_moons ⟨[marsPlanet, mercuryPlanet]⟩ "mars"
      = .ok (.info "Moon Count" "Mars has 2 moon(s).") ∧
    show_details ⟨[marsPlanet, mercuryPlanet]⟩ "mars"
      = .ok (.info "Planet Details"
          "Name: Mars\nMass: 6.4171e23 kg\nDistance from Sun: 227900000 km\nMoons: Phobos, Deimos") ∧
    get_moons ⟨[marsPlanet, mercuryPlanet]⟩ "Mercury"
      = .ok (.info "Moon Count" "Mercury has 0 moon(s).") ∧
    show_details ⟨[marsPlanet, mercuryPlanet]⟩ "Mercury"
      = .ok (.info "Planet Details"
          "Name: Mercury\nMass: 3.3011e23 kg\nDistance from Sun: 57910000 km\nMoons: None") :=
  have hm := c7_moon_count_and_rendering ⟨[marsPlanet, mercuryPlanet]⟩ "mars"
    marsPlanet ["Phobos", "Deimos"] rfl rfl
  have hn := c7_moon_count_and_rendering ⟨[marsPlanet, mercuryPlanet]⟩ "Mercury"
    mercuryPlanet [] rfl rfl
  ⟨hm.2.1, hm.2.2, hn.2.1, hn.2.2⟩
